import Mathlib

/-!
Shallow embedding of the peer-to-peer overlay core of hcnet-core 20.0.2
(`overlay/Peer.cpp`, `overlay/Peer.h`, `overlay/FlowControlCapacity.cpp`),
together with theorems settling the frozen claims about it.

External collaborators (ban list, peer directory, consensus engine, ledger,
crypto primitives, configuration) are parametrised through an `Env` record:
the embedded functions are ports of the source member functions, with every
call into a collaborator replaced by a field of `Env`.
-/

namespace Hcnet

/-- Transaction hashes, node identities, nonces, keys and MACs are opaque
values for the overlay logic; we model them as natural numbers. -/
abbrev Hash := Nat
abbrev NodeID := Nat

/-- Wire error codes (`ErrorCode` in the XDR definitions). -/
inductive ErrorCode
  | ERR_MISC | ERR_DATA | ERR_CONF | ERR_AUTH | ERR_LOAD
deriving DecidableEq, Repr

/-- The discriminants of the `HcnetMessage` XDR union. -/
inductive MessageType
  | ERROR_MSG | HELLO | AUTH | DONT_HAVE | GET_PEERS | PEERS
  | GET_TX_SET | TX_SET | GENERALIZED_TX_SET | TRANSACTION
  | GET_SCP_QUORUMSET | SCP_QUORUMSET | SCP_MESSAGE | GET_SCP_STATE
  | SURVEY_REQUEST | SURVEY_RESPONSE | SEND_MORE | SEND_MORE_EXTENDED
  | FLOOD_ADVERT | FLOOD_DEMAND
deriving DecidableEq, Repr

/-- The `Hello` XDR struct (the fields read by `Peer::recvHello`).
The auth certificate is collapsed to its ephemeral public key `cert`;
certificate verification is a function of the environment. -/
structure Hello where
  ledgerVersion : Nat
  overlayMinVersion : Nat
  overlayVersion : Nat
  versionStr : String
  networkID : Nat
  listeningPort : Int
  peerID : NodeID
  cert : Nat
  nonce : Nat
deriving DecidableEq, Repr

/-- The `HcnetMessage` XDR union, carrying the payload fields the overlay
core reads; variants whose payloads the embedded code never inspects are
payload-free. -/
inductive HcnetMessage
  | error (code : ErrorCode) (msg : String)
  | hello (h : Hello)
  | auth (flags : Nat)
  | dontHave (t : MessageType) (reqHash : Hash)
  | getPeers
  | peers (ps : List Nat)
  | getTxSet (h : Hash)
  | txSet
  | generalizedTxSet
  | transaction (tx : Nat)
  | getSCPQuorumSet (h : Hash)
  | scpQuorumSet
  | scpMessage
  | getSCPState (seq : Nat)
  | surveyRequest
  | surveyResponse
  | sendMore (numMessages : Nat)
  | sendMoreExtended (numMessages : Nat) (numBytes : Nat)
  | floodAdvert (txHashes : List Hash)
  | floodDemand (txHashes : List Hash)
deriving DecidableEq, Repr

/-- `HcnetMessage::type()`. -/
def HcnetMessage.type : HcnetMessage → MessageType
  | .error _ _ => .ERROR_MSG
  | .hello _ => .HELLO
  | .auth _ => .AUTH
  | .dontHave _ _ => .DONT_HAVE
  | .getPeers => .GET_PEERS
  | .peers _ => .PEERS
  | .getTxSet _ => .GET_TX_SET
  | .txSet => .TX_SET
  | .generalizedTxSet => .GENERALIZED_TX_SET
  | .transaction _ => .TRANSACTION
  | .getSCPQuorumSet _ => .GET_SCP_QUORUMSET
  | .scpQuorumSet => .SCP_QUORUMSET
  | .scpMessage => .SCP_MESSAGE
  | .getSCPState _ => .GET_SCP_STATE
  | .surveyRequest => .SURVEY_REQUEST
  | .surveyResponse => .SURVEY_RESPONSE
  | .sendMore _ => .SEND_MORE
  | .sendMoreExtended _ _ => .SEND_MORE_EXTENDED
  | .floodAdvert _ => .FLOOD_ADVERT
  | .floodDemand _ => .FLOOD_DEMAND

/-- The `AuthenticatedMessage` envelope (`v0`): a sequence number, the body,
and a MAC.  XDR default-initialises `sequence` and `mac` to zero. -/
structure AuthenticatedMessage where
  sequence : Nat := 0
  message : HcnetMessage
  mac : Nat := 0
deriving DecidableEq, Repr

/-- `Peer::PeerState` with its source numeric values. -/
inductive PeerState
  | CONNECTING | CONNECTED | GOT_HELLO | GOT_AUTH | CLOSING
deriving DecidableEq, Repr

/-- The integer value of each state (`CONNECTING = 0 … CLOSING = 4`),
used for the `mState >= GOT_HELLO` comparisons in the source. -/
def PeerState.toNat : PeerState → Nat
  | .CONNECTING => 0
  | .CONNECTED => 1
  | .GOT_HELLO => 2
  | .GOT_AUTH => 3
  | .CLOSING => 4

/-- `Peer::PeerRole`. -/
inductive PeerRole
  | REMOTE_CALLED_US | WE_CALLED_REMOTE
deriving DecidableEq, Repr

/-- `Peer::DropMode`. -/
inductive DropMode
  | FLUSH_WRITE_QUEUE | IGNORE_WRITE_QUEUE
deriving DecidableEq, Repr

/-- `Peer::DropDirection`. -/
inductive DropDirection
  | REMOTE_DROPPED_US | WE_DROPPED_REMOTE
deriving DecidableEq, Repr

/-- The mutable per-connection fields of `class Peer` that the embedded
member functions read or write. -/
structure Peer where
  role : PeerRole
  state : PeerState
  peerID : NodeID
  sendNonce : Nat
  recvNonce : Nat
  sendMacKey : Nat
  recvMacKey : Nat
  sendMacSeq : Nat
  recvMacSeq : Nat
  remoteVersion : String
  remoteOverlayMinVersion : Nat
  remoteOverlayVersion : Nat
  addressIP : String
  addressPort : Int
deriving DecidableEq, Repr

/-- Everything the embedded code reaches outside the `Peer` object:
configuration values, collaborator queries and the cryptographic
primitives, each as an uninterpreted field. -/
structure Env where
  /-- `OverlayManager::isShuttingDown()`. -/
  overlayShuttingDown : Bool
  /-- `PeerAuth::verifyRemoteAuthCert(peerID, cert)`. -/
  verifyCert : NodeID → Nat → Bool
  /-- `BanManager::isBanned(peerID)`. -/
  isBanned : NodeID → Bool
  /-- `PeerAuth::getSendingMacKey(certPubkey, sendNonce, recvNonce, role)`. -/
  getSendingMacKey : Nat → Nat → Nat → PeerRole → Nat
  /-- `PeerAuth::getReceivingMacKey(certPubkey, sendNonce, recvNonce, role)`. -/
  getReceivingMacKey : Nat → Nat → Nat → PeerRole → Nat
  /-- `hmacSha256(key, xdr(seq, msg))`: the HMAC of a sequence number and an
  encoded message under a key.  `hmacSha256Verify(mac, key, xdr(seq, msg))`
  is modelled as equality of `mac` with this value. -/
  hmac : Nat → Nat → HcnetMessage → Nat
  /-- `xdr::xdr_size(msg)`: the size in bytes of the encoded message. -/
  xdrSize : HcnetMessage → Nat
  /-- `Application::getNetworkID()`. -/
  networkID : Nat
  /-- `Config::NODE_SEED.getPublicKey()`. -/
  nodeID : NodeID
  /-- `Config::OVERLAY_PROTOCOL_MIN_VERSION`. -/
  OVERLAY_PROTOCOL_MIN_VERSION : Nat
  /-- `Config::OVERLAY_PROTOCOL_VERSION`. -/
  OVERLAY_PROTOCOL_VERSION : Nat
  /-- `Config::LEDGER_PROTOCOL_VERSION`. -/
  LEDGER_PROTOCOL_VERSION : Nat
  /-- `Config::VERSION_STR`. -/
  VERSION_STR : String
  /-- `Config::PEER_PORT`. -/
  PEER_PORT : Int
  /-- `Config::ENABLE_FLOW_CONTROL_BYTES`. -/
  ENABLE_FLOW_CONTROL_BYTES : Bool
  /-- `Config::PEER_TIMEOUT` (seconds). -/
  PEER_TIMEOUT : Int
  /-- `Config::PEER_AUTHENTICATION_TIMEOUT` (seconds). -/
  PEER_AUTHENTICATION_TIMEOUT : Int
  /-- `Config::PEER_STRAGGLER_TIMEOUT` (seconds). -/
  PEER_STRAGGLER_TIMEOUT : Int
  /-- `PeerAuth::getAuthCert()`, collapsed to its ephemeral public key. -/
  getAuthCert : Nat
  /-- The remote IP as determined from the socket (`getIP()`). -/
  getIP : String
  /-- Identities of the already-authenticated peers other than this
  session (`OverlayManager::getAuthenticatedPeers()`). -/
  authenticatedPeers : List NodeID
  /-- Identities of the pending peers other than this session
  (`OverlayManager::getPendingPeers()`). -/
  pendingPeers : List NodeID
  /-- `OverlayManager::acceptAuthenticatedPeer(self)`. -/
  acceptAuthenticatedPeer : Bool
  /-- `PeerManager::getPeersToSend(...)`, already converted to XDR. -/
  peersToSend : List Nat
  /-- `Herder::getMinLedgerSeqToAskPeers()`. -/
  getMinLedgerSeqToAskPeers : Nat
  /-- `LedgerManager::isSynced()`. -/
  isSynced : Bool
  /-- `Herder::getTx(hash)`. -/
  getTx : Hash → Option Nat
  /-- `Herder::isBannedTx(hash)`. -/
  isBannedTx : Hash → Bool
  /-- `OverlayManager::getMaxAdvertSize()`. -/
  getMaxAdvertSize : Nat

/-- `Peer::shouldAbort()`. -/
def Peer.shouldAbort (env : Env) (p : Peer) : Bool :=
  p.state = .CLOSING || env.overlayShuttingDown

/-- `Peer::isAuthenticated()`. -/
def Peer.isAuthenticated (p : Peer) : Bool :=
  p.state = .GOT_AUTH

/-- Everything observable a `Peer` member function does besides mutating the
`Peer` fields: outgoing messages handed to `sendMessage`, calls to `drop`,
handing the body of an authenticated envelope to the inner
`recvMessage(HcnetMessage const&)`, and starting flow control. -/
inductive Event
  | sendMsg (m : HcnetMessage)
  | drop (reason : String) (dir : DropDirection) (mode : DropMode)
  | deliver (m : HcnetMessage)
  | startFlowControl (bytesEnabled : Bool)
  | startAdvertTimer
deriving DecidableEq, Repr

/-- `Peer::sendError(error, message)`: builds and sends an `ERROR_MSG`. -/
def sendError (error : ErrorCode) (message : String) : Event :=
  .sendMsg (.error error message)

/-- `Peer::sendErrorAndDrop(error, message, dropMode)`: sends the error, then
drops with the message as reason and direction `WE_DROPPED_REMOTE`. -/
def sendErrorAndDrop (error : ErrorCode) (message : String)
    (dropMode : DropMode) : List Event :=
  [sendError error message,
   .drop message .WE_DROPPED_REMOTE dropMode]

/-- `Peer::recvMessage(AuthenticatedMessage const&)`: the authentication
layer.  In state `GOT_HELLO` or later, for any type but `ERROR_MSG`, checks
the sequence against `mRecvMacSeq` and the HMAC against the receive key,
incrementing `mRecvMacSeq` on every path through the check block; on a
mismatch sends `ERR_AUTH` and drops ignoring the write queue.  The body is
then handed to the `HcnetMessage` overload (event `deliver`). -/
def Peer.recvMessageAuth (env : Env) (p : Peer) (msg : AuthenticatedMessage) :
    Peer × List Event :=
  if p.shouldAbort env then (p, [])
  else if p.state.toNat ≥ PeerState.GOT_HELLO.toNat ∧
      msg.message.type ≠ .ERROR_MSG then
    if msg.sequence ≠ p.recvMacSeq then
      ({ p with recvMacSeq := p.recvMacSeq + 1 },
       sendErrorAndDrop .ERR_AUTH "unexpected auth sequence"
         .IGNORE_WRITE_QUEUE)
    else if msg.mac ≠ env.hmac p.recvMacKey msg.sequence msg.message then
      ({ p with recvMacSeq := p.recvMacSeq + 1 },
       sendErrorAndDrop .ERR_AUTH "unexpected MAC" .IGNORE_WRITE_QUEUE)
    else
      ({ p with recvMacSeq := p.recvMacSeq + 1 }, [.deliver msg.message])
  else
    (p, [.deliver msg.message])

/-- `Peer::sendAuthenticatedMessage(msg)`: wraps a message in the
authenticated envelope.  Types other than `HELLO` and `ERROR_MSG` get the
current `mSendMacSeq` and an HMAC under the send key, and the counter is
incremented; `HELLO` and `ERROR_MSG` keep the XDR defaults (0, 0). -/
def Peer.sendAuthenticatedMessage (env : Env) (p : Peer)
    (msg : HcnetMessage) : Peer × AuthenticatedMessage :=
  if msg.type ≠ .HELLO ∧ msg.type ≠ .ERROR_MSG then
    ({ p with sendMacSeq := p.sendMacSeq + 1 },
     { sequence := p.sendMacSeq, message := msg,
       mac := env.hmac p.sendMacKey p.sendMacSeq msg })
  else
    (p, { sequence := 0, message := msg, mac := 0 })

/-- `Peer::FIRST_VERSION_SUPPORTING_FLOW_CONTROL_IN_BYTES`. -/
def FIRST_VERSION_SUPPORTING_FLOW_CONTROL_IN_BYTES : Nat := 28

/-- The XDR constant `AUTH_MSG_FLAG_FLOW_CONTROL_BYTES_REQUESTED` (value from
the protocol XDR definitions; the overlay code only compares flags against
it for equality). -/
def AUTH_MSG_FLAG_FLOW_CONTROL_BYTES_REQUESTED : Nat := 200

/-- `msg.auth().flags` (meaningful only on an `AUTH` message). -/
def HcnetMessage.authFlags : HcnetMessage → Nat
  | .auth flags => flags
  | _ => 0

/-- The `HELLO` message built by `Peer::sendHello()` from the configuration,
the node identity, the auth certificate and the session send nonce. -/
def helloMsg (env : Env) (p : Peer) : HcnetMessage :=
  .hello { ledgerVersion := env.LEDGER_PROTOCOL_VERSION,
           overlayMinVersion := env.OVERLAY_PROTOCOL_MIN_VERSION,
           overlayVersion := env.OVERLAY_PROTOCOL_VERSION,
           versionStr := env.VERSION_STR,
           networkID := env.networkID,
           listeningPort := env.PEER_PORT,
           peerID := env.nodeID,
           cert := env.getAuthCert,
           nonce := p.sendNonce }

/-- The `AUTH` message built by `Peer::sendAuth()`: the flags field requests
byte flow control exactly when the local configuration enables it (XDR
default 0 otherwise). -/
def sendAuthMsg (env : Env) : HcnetMessage :=
  .auth (if env.ENABLE_FLOW_CONTROL_BYTES
         then AUTH_MSG_FLAG_FLOW_CONTROL_BYTES_REQUESTED else 0)

/-- `Peer::sendPeers()`: sends a `PEERS` message with the directory's
addresses, or nothing when the list is empty. -/
def sendPeersEvents (env : Env) : List Event :=
  if env.peersToSend = [] then [] else [.sendMsg (.peers env.peersToSend)]

/-- `Peer::recvHello(elo)`: the full handshake check sequence, ported check
for check in source order.  The duplicate-peer scans over authenticated and
pending peers are abstracted to membership of the claimed identity in the
environment's lists (which exclude this session itself, mirroring the
source's pointer-identity skip), and the `toShortString` suffix of the
"already-connected peer" reason is elided.  `updatePeerRecordAfterEcho` is
a peer-directory side effect with no observable event here. -/
def Peer.recvHello (env : Env) (p : Peer) (elo : Hello) : Peer × List Event :=
  if p.state.toNat ≥ PeerState.GOT_HELLO.toNat then
    (p, [.drop "received unexpected HELLO" .WE_DROPPED_REMOTE
           .IGNORE_WRITE_QUEUE])
  else if ¬ env.verifyCert elo.peerID elo.cert then
    (p, [.drop "failed to verify auth cert" .WE_DROPPED_REMOTE
           .IGNORE_WRITE_QUEUE])
  else if env.isBanned elo.peerID then
    (p, [.drop "node is banned" .WE_DROPPED_REMOTE .IGNORE_WRITE_QUEUE])
  else
    let p := { p with
      remoteOverlayMinVersion := elo.overlayMinVersion,
      remoteOverlayVersion := elo.overlayVersion,
      remoteVersion := elo.versionStr,
      peerID := elo.peerID,
      recvNonce := elo.nonce,
      sendMacSeq := 0,
      recvMacSeq := 0,
      sendMacKey := env.getSendingMacKey elo.cert p.sendNonce elo.nonce p.role,
      recvMacKey := env.getReceivingMacKey elo.cert p.sendNonce elo.nonce
        p.role,
      state := .GOT_HELLO }
    if env.getIP = "" then
      (p, [.drop "failed to determine remote address" .WE_DROPPED_REMOTE
             .IGNORE_WRITE_QUEUE])
    else
      let p := { p with addressIP := env.getIP,
                        addressPort := elo.listeningPort }
      let pre : List Event :=
        if p.role = .REMOTE_CALLED_US then [.sendMsg (helloMsg env p)]
        else []
      let dropMode : DropMode :=
        if p.role = .REMOTE_CALLED_US then .FLUSH_WRITE_QUEUE
        else .IGNORE_WRITE_QUEUE
      if p.remoteOverlayMinVersion > p.remoteOverlayVersion ∨
         p.remoteOverlayVersion < env.OVERLAY_PROTOCOL_MIN_VERSION ∨
         p.remoteOverlayMinVersion > env.OVERLAY_PROTOCOL_VERSION then
        (p, pre ++ sendErrorAndDrop .ERR_CONF "wrong protocol version"
              dropMode)
      else if elo.peerID = env.nodeID then
        (p, pre ++ sendErrorAndDrop .ERR_CONF "connecting to self" dropMode)
      else if elo.networkID ≠ env.networkID then
        (p, pre ++ sendErrorAndDrop .ERR_CONF "wrong network passphrase"
              dropMode)
      else if elo.listeningPort ≤ 0 ∨ elo.listeningPort > 65535 then
        (p, pre ++ sendErrorAndDrop .ERR_CONF "bad address"
              .IGNORE_WRITE_QUEUE)
      else if elo.peerID ∈ env.authenticatedPeers then
        (p, pre ++ sendErrorAndDrop .ERR_CONF "already-connected peer"
              dropMode)
      else if elo.peerID ∈ env.pendingPeers then
        (p, pre ++ sendErrorAndDrop .ERR_CONF "already-connected peer"
              dropMode)
      else if p.role = .WE_CALLED_REMOTE then
        (p, pre ++ [.sendMsg (sendAuthMsg env)])
      else
        (p, pre)

/-- `Peer::recvAuth(msg)`: state checks, transition to `GOT_AUTH`, the
responder's `AUTH`/`PEERS` replies, overlay-manager acceptance, and the
byte-axis flow-control capability negotiation.
`updatePeerRecordAfterAuthentication` is a directory side effect with no
observable event; `FlowControl::start` is the `startFlowControl` event and
the trailing `sendGetScpState` the final send. -/
def Peer.recvAuth (env : Env) (p : Peer) (msg : HcnetMessage) :
    Peer × List Event :=
  if p.state ≠ .GOT_HELLO then
    (p, sendErrorAndDrop .ERR_MISC "out-of-order AUTH message"
          .IGNORE_WRITE_QUEUE)
  else if p.isAuthenticated then
    (p, sendErrorAndDrop .ERR_MISC "out-of-order AUTH message"
          .IGNORE_WRITE_QUEUE)
  else
    let p := { p with state := .GOT_AUTH }
    let pre : List Event :=
      if p.role = .REMOTE_CALLED_US then
        .sendMsg (sendAuthMsg env) :: sendPeersEvents env
      else []
    if ¬ env.acceptAuthenticatedPeer then
      (p, pre ++ sendErrorAndDrop .ERR_LOAD "peer rejected"
            .FLUSH_WRITE_QUEUE)
    else
      let enableBytes : Bool :=
        decide (env.OVERLAY_PROTOCOL_VERSION ≥
            FIRST_VERSION_SUPPORTING_FLOW_CONTROL_IN_BYTES ∧
          p.remoteOverlayVersion ≥
            FIRST_VERSION_SUPPORTING_FLOW_CONTROL_IN_BYTES)
      let bothWantBytes : Bool :=
        enableBytes &&
          decide (msg.authFlags =
            AUTH_MSG_FLAG_FLOW_CONTROL_BYTES_REQUESTED) &&
          env.ENABLE_FLOW_CONTROL_BYTES
      (p, pre ++ [.startFlowControl bothWantBytes,
                  .sendMsg (.getSCPState env.getMinLedgerSeqToAskPeers)])

/-- A fixed environment with trivial collaborators, used to evaluate the
embedded functions at concrete inputs. -/
def env0 : Env where
  overlayShuttingDown := false
  verifyCert := fun _ _ => true
  isBanned := fun _ => false
  getSendingMacKey := fun _ _ _ _ => 10
  getReceivingMacKey := fun _ _ _ _ => 20
  hmac := fun k s _ => k + s
  xdrSize := fun _ => 1
  networkID := 7
  nodeID := 1
  OVERLAY_PROTOCOL_MIN_VERSION := 27
  OVERLAY_PROTOCOL_VERSION := 30
  LEDGER_PROTOCOL_VERSION := 20
  VERSION_STR := "v20.0.2"
  PEER_PORT := 11625
  ENABLE_FLOW_CONTROL_BYTES := true
  PEER_TIMEOUT := 30
  PEER_AUTHENTICATION_TIMEOUT := 2
  PEER_STRAGGLER_TIMEOUT := 120
  getAuthCert := 5
  getIP := "127.0.0.1"
  authenticatedPeers := []
  pendingPeers := []
  acceptAuthenticatedPeer := true
  peersToSend := []
  getMinLedgerSeqToAskPeers := 100
  isSynced := true
  getTx := fun _ => none
  isBannedTx := fun _ => false
  getMaxAdvertSize := 3

/-- A fixed peer session in state `GOT_HELLO`, for concrete evaluation. -/
def p0 : Peer where
  role := .WE_CALLED_REMOTE
  state := .GOT_HELLO
  peerID := 2
  sendNonce := 3
  recvNonce := 4
  sendMacKey := 10
  recvMacKey := 20
  sendMacSeq := 0
  recvMacSeq := 0
  remoteVersion := "v20.0.2"
  remoteOverlayMinVersion := 27
  remoteOverlayVersion := 30
  addressIP := "127.0.0.1"
  addressPort := 11625

/-- C1: in state `GOT_HELLO` or later, a non-`ERROR_MSG` authenticated
message is accepted (delivered to the inner handler) iff its sequence equals
the receive MAC counter and its MAC is the HMAC of (sequence, body) under
the receive key; a sequence mismatch or a MAC mismatch sends `ERR_AUTH` and
drops ignoring the write queue; and on every one of the three paths the
receive counter is incremented by exactly one. -/
theorem C1_recv_authenticated_message (env : Env) (p : Peer)
    (msg : AuthenticatedMessage)
    (hAbort : p.shouldAbort env = false)
    (hState : PeerState.GOT_HELLO.toNat ≤ p.state.toNat)
    (hType : msg.message.type ≠ .ERROR_MSG) :
    ((p.recvMessageAuth env msg).2 = [.deliver msg.message] ↔
       msg.sequence = p.recvMacSeq ∧
       msg.mac = env.hmac p.recvMacKey msg.sequence msg.message) ∧
    (msg.sequence ≠ p.recvMacSeq →
       (p.recvMessageAuth env msg).2 =
         sendErrorAndDrop .ERR_AUTH "unexpected auth sequence"
           .IGNORE_WRITE_QUEUE) ∧
    (msg.sequence = p.recvMacSeq →
       msg.mac ≠ env.hmac p.recvMacKey msg.sequence msg.message →
       (p.recvMessageAuth env msg).2 =
         sendErrorAndDrop .ERR_AUTH "unexpected MAC" .IGNORE_WRITE_QUEUE) ∧
    (p.recvMessageAuth env msg).1.recvMacSeq = p.recvMacSeq + 1 := by
  have hcond : PeerState.GOT_HELLO.toNat ≤ p.state.toNat ∧
      msg.message.type ≠ .ERROR_MSG := ⟨hState, hType⟩
  by_cases hseq : msg.sequence = p.recvMacSeq
  · by_cases hMac : msg.mac = env.hmac p.recvMacKey p.recvMacSeq msg.message
    · simp [Peer.recvMessageAuth, hAbort, hcond, hseq, hMac, sendErrorAndDrop]
    · simp [Peer.recvMessageAuth, hAbort, hcond, hseq, hMac, sendErrorAndDrop]
  · simp [Peer.recvMessageAuth, hAbort, hcond, hseq, sendErrorAndDrop]

/-- Witness for C1 at a concrete input (a `GET_PEERS` message carrying the
correct sequence and MAC). -/
theorem C1_recv_authenticated_message_witness :
    Peer.shouldAbort env0 p0 = false ∧
    PeerState.GOT_HELLO.toNat ≤ p0.state.toNat ∧
    (AuthenticatedMessage.mk 0 .getPeers 20).message.type ≠ .ERROR_MSG ∧
    (((p0.recvMessageAuth env0 (AuthenticatedMessage.mk 0 .getPeers 20)).2 =
        [.deliver .getPeers] ↔
       (AuthenticatedMessage.mk 0 .getPeers 20).sequence = p0.recvMacSeq ∧
       (AuthenticatedMessage.mk 0 .getPeers 20).mac =
         env0.hmac p0.recvMacKey 0 .getPeers) ∧
     ((AuthenticatedMessage.mk 0 .getPeers 20).sequence ≠ p0.recvMacSeq →
       (p0.recvMessageAuth env0 (AuthenticatedMessage.mk 0 .getPeers 20)).2 =
         sendErrorAndDrop .ERR_AUTH "unexpected auth sequence"
           .IGNORE_WRITE_QUEUE) ∧
     ((AuthenticatedMessage.mk 0 .getPeers 20).sequence = p0.recvMacSeq →
       (AuthenticatedMessage.mk 0 .getPeers 20).mac ≠
         env0.hmac p0.recvMacKey 0 .getPeers →
       (p0.recvMessageAuth env0 (AuthenticatedMessage.mk 0 .getPeers 20)).2 =
         sendErrorAndDrop .ERR_AUTH "unexpected MAC" .IGNORE_WRITE_QUEUE) ∧
     (p0.recvMessageAuth env0
        (AuthenticatedMessage.mk 0 .getPeers 20)).1.recvMacSeq =
       p0.recvMacSeq + 1) :=
  ⟨by decide, by decide, by decide,
   C1_recv_authenticated_message env0 p0 _ (by decide) (by decide)
     (by decide)⟩

/-- C3: sending, only non-`HELLO`, non-`ERROR_MSG` messages are MACed over
(send counter, message) and advance the counter, while `HELLO` and
`ERROR_MSG` go out with sequence 0 and MAC 0 and leave the counter
untouched; receiving, an `ERROR_MSG` envelope is delivered without any
sequence or MAC verification and without touching the receive counter. -/
theorem C3_hello_error_unauthenticated (env : Env) (p : Peer)
    (msg : HcnetMessage) (am : AuthenticatedMessage)
    (hAbort : p.shouldAbort env = false) :
    (msg.type = .HELLO ∨ msg.type = .ERROR_MSG →
       p.sendAuthenticatedMessage env msg =
         (p, { sequence := 0, message := msg, mac := 0 })) ∧
    (msg.type ≠ .HELLO → msg.type ≠ .ERROR_MSG →
       p.sendAuthenticatedMessage env msg =
         ({ p with sendMacSeq := p.sendMacSeq + 1 },
          { sequence := p.sendMacSeq, message := msg,
            mac := env.hmac p.sendMacKey p.sendMacSeq msg })) ∧
    (am.message.type = .ERROR_MSG →
       p.recvMessageAuth env am = (p, [.deliver am.message])) := by
  refine ⟨?_, ?_, ?_⟩
  · intro h
    rcases h with h | h <;>
      simp [Peer.sendAuthenticatedMessage, h]
  · intro h1 h2
    simp [Peer.sendAuthenticatedMessage, h1, h2]
  · intro h
    simp [Peer.recvMessageAuth, hAbort, h]

/-- Witness for C3 at concrete inputs (an `ERROR_MSG` being sent and an
`ERROR_MSG` envelope being received). -/
theorem C3_hello_error_unauthenticated_witness :
    Peer.shouldAbort env0 p0 = false ∧
    ((HcnetMessage.error .ERR_MISC "x").type = .HELLO ∨
       (HcnetMessage.error .ERR_MISC "x").type = .ERROR_MSG →
     p0.sendAuthenticatedMessage env0 (.error .ERR_MISC "x") =
       (p0, { sequence := 0, message := .error .ERR_MISC "x", mac := 0 })) ∧
    ((HcnetMessage.error .ERR_MISC "x").type ≠ .HELLO →
       (HcnetMessage.error .ERR_MISC "x").type ≠ .ERROR_MSG →
     p0.sendAuthenticatedMessage env0 (.error .ERR_MISC "x") =
       ({ p0 with sendMacSeq := p0.sendMacSeq + 1 },
        { sequence := p0.sendMacSeq, message := .error .ERR_MISC "x",
          mac := env0.hmac p0.sendMacKey p0.sendMacSeq
            (.error .ERR_MISC "x") })) ∧
    ((AuthenticatedMessage.mk 5 (.error .ERR_MISC "y") 9).message.type =
       .ERROR_MSG →
     p0.recvMessageAuth env0 (AuthenticatedMessage.mk 5 (.error .ERR_MISC "y")
         9) =
       (p0, [.deliver (.error .ERR_MISC "y")])) :=
  ⟨by decide,
   (C3_hello_error_unauthenticated env0 p0 (.error .ERR_MISC "x")
      (AuthenticatedMessage.mk 5 (.error .ERR_MISC "y") 9) (by decide)).1,
   (C3_hello_error_unauthenticated env0 p0 (.error .ERR_MISC "x")
      (AuthenticatedMessage.mk 5 (.error .ERR_MISC "y") 9) (by decide)).2.1,
   (C3_hello_error_unauthenticated env0 p0 (.error .ERR_MISC "x")
      (AuthenticatedMessage.mk 5 (.error .ERR_MISC "y") 9) (by decide)).2.2⟩

/-- Does an event list contain a send of an `ERR_CONF` error message? -/
def sendsErrConf (evs : List Event) : Bool :=
  evs.any fun e => match e with
    | .sendMsg (.error .ERR_CONF _) => true
    | _ => false

/-- Does an event list contain a drop with `FLUSH_WRITE_QUEUE`? -/
def dropsFlush (evs : List Event) : Bool :=
  evs.any fun e => match e with
    | .drop _ _ .FLUSH_WRITE_QUEUE => true
    | _ => false

/-- The events `recvHello` emits before any failure reply: the responder
(`REMOTE_CALLED_US`) sends its own `HELLO` back first. -/
def helloPrefix (env : Env) (p : Peer) : List Event :=
  if p.role = .REMOTE_CALLED_US then [.sendMsg (helloMsg env p)] else []

/-- The drop mode `recvHello` uses for the post-echo handshake failures:
`FLUSH_WRITE_QUEUE` on the responder side, `IGNORE_WRITE_QUEUE` on the
initiator side. -/
def helloDropMode (p : Peer) : DropMode :=
  if p.role = .REMOTE_CALLED_US then .FLUSH_WRITE_QUEUE
  else .IGNORE_WRITE_QUEUE

/-- An environment whose certificate verification rejects everything. -/
def envBadCert : Env := { env0 with verifyCert := fun _ _ => false }

/-- A responder-side session that has not yet seen `HELLO`. -/
def p1 : Peer := { p0 with state := .CONNECTED, role := .REMOTE_CALLED_US }

/-- A remote `HELLO` compatible with `env0` except where noted. -/
def elo0 : Hello where
  ledgerVersion := 20
  overlayMinVersion := 27
  overlayVersion := 30
  versionStr := "v20.0.2"
  networkID := 7
  listeningPort := 11625
  peerID := 9
  cert := 5
  nonce := 8

/-- Counterexample to C2: a `HELLO` that fails the certificate check — one
of the claim's listed handshake failures — is dropped with
`IGNORE_WRITE_QUEUE` and no `ERR_CONF` is sent, contradicting "sends
ERR_CONF … and drops the connection with FLUSH_WRITE_QUEUE". -/
theorem C2_counterexample :
    (Peer.recvHello envBadCert p1 elo0).2 =
      [.drop "failed to verify auth cert" .WE_DROPPED_REMOTE
         .IGNORE_WRITE_QUEUE] ∧
    sendsErrConf (Peer.recvHello envBadCert p1 elo0).2 = false ∧
    dropsFlush (Peer.recvHello envBadCert p1 elo0).2 = false := by
  refine ⟨?_, ?_, ?_⟩ <;> decide

/-- C2 (amended): a `HELLO` failing certificate verification or coming from
a banned peer is dropped with `IGNORE_WRITE_QUEUE` and no error is sent;
wrong protocol version, self-connect and wrong network send `ERR_CONF` and
drop with `FLUSH_WRITE_QUEUE` on the responder side (which sends its own
`HELLO` first) and `IGNORE_WRITE_QUEUE` on the initiator side. -/
theorem C2_recvHello_failure_behaviour (env : Env) (p : Peer) (elo : Hello)
    (hState : p.state.toNat < PeerState.GOT_HELLO.toNat) :
    (env.verifyCert elo.peerID elo.cert = false →
       (p.recvHello env elo).2 =
         [.drop "failed to verify auth cert" .WE_DROPPED_REMOTE
            .IGNORE_WRITE_QUEUE]) ∧
    (env.verifyCert elo.peerID elo.cert = true →
       env.isBanned elo.peerID = true →
       (p.recvHello env elo).2 =
         [.drop "node is banned" .WE_DROPPED_REMOTE .IGNORE_WRITE_QUEUE]) ∧
    (env.verifyCert elo.peerID elo.cert = true →
       env.isBanned elo.peerID = false →
       env.getIP ≠ "" →
       (elo.overlayMinVersion > elo.overlayVersion ∨
        elo.overlayVersion < env.OVERLAY_PROTOCOL_MIN_VERSION ∨
        elo.overlayMinVersion > env.OVERLAY_PROTOCOL_VERSION) →
       (p.recvHello env elo).2 =
         helloPrefix env p ++
           sendErrorAndDrop .ERR_CONF "wrong protocol version"
             (helloDropMode p)) ∧
    (env.verifyCert elo.peerID elo.cert = true →
       env.isBanned elo.peerID = false →
       env.getIP ≠ "" →
       ¬ (elo.overlayMinVersion > elo.overlayVersion ∨
          elo.overlayVersion < env.OVERLAY_PROTOCOL_MIN_VERSION ∨
          elo.overlayMinVersion > env.OVERLAY_PROTOCOL_VERSION) →
       elo.peerID = env.nodeID →
       (p.recvHello env elo).2 =
         helloPrefix env p ++
           sendErrorAndDrop .ERR_CONF "connecting to self"
             (helloDropMode p)) ∧
    (env.verifyCert elo.peerID elo.cert = true →
       env.isBanned elo.peerID = false →
       env.getIP ≠ "" →
       ¬ (elo.overlayMinVersion > elo.overlayVersion ∨
          elo.overlayVersion < env.OVERLAY_PROTOCOL_MIN_VERSION ∨
          elo.overlayMinVersion > env.OVERLAY_PROTOCOL_VERSION) →
       elo.peerID ≠ env.nodeID →
       elo.networkID ≠ env.networkID →
       (p.recvHello env elo).2 =
         helloPrefix env p ++
           sendErrorAndDrop .ERR_CONF "wrong network passphrase"
             (helloDropMode p)) := by
  have hlt : ¬ PeerState.GOT_HELLO.toNat ≤ p.state.toNat :=
    Nat.not_le.mpr hState
  refine ⟨?_, ?_, ?_, ?_, ?_⟩
  · intro hCert
    simp [Peer.recvHello, hlt, hCert]
  · intro hCert hBan
    simp [Peer.recvHello, hlt, hCert, hBan]
  · intro hCert hBan hIP hVm
    by_cases hr : p.role = .REMOTE_CALLED_US <;>
      simp [Peer.recvHello, hlt, hCert, hBan, hIP, hVm, helloPrefix,
        helloDropMode, helloMsg, hr]
  · intro hCert hBan hIP hVm hSelf
    rw [hSelf] at hCert hBan
    by_cases hr : p.role = .REMOTE_CALLED_US <;>
      simp [Peer.recvHello, hlt, hCert, hBan, hIP, hVm, hSelf, helloPrefix,
        helloDropMode, helloMsg, hr]
  · intro hCert hBan hIP hVm hSelf hNet
    by_cases hr : p.role = .REMOTE_CALLED_US <;>
      simp [Peer.recvHello, hlt, hCert, hBan, hIP, hVm, hSelf, hNet,
        helloPrefix, helloDropMode, helloMsg, hr]

/-- Witness for the amended C2: a responder receiving a self-connect
`HELLO` replies with its own `HELLO`, then `ERR_CONF`("connecting to
self"), and drops flushing the write queue. -/
theorem C2_recvHello_failure_behaviour_witness :
    p1.state.toNat < PeerState.GOT_HELLO.toNat ∧
    (Peer.recvHello env0 p1 { elo0 with peerID := 1 }).2 =
      helloPrefix env0 p1 ++
        sendErrorAndDrop .ERR_CONF "connecting to self"
          (helloDropMode p1) :=
  ⟨by decide,
   (C2_recvHello_failure_behaviour env0 p1 { elo0 with peerID := 1 }
       (by decide)).2.2.2.1 (by decide) (by decide) (by decide) (by decide)
     (by decide)⟩

/-- C6: after a valid `AUTH` in state `GOT_HELLO` (with the overlay manager
accepting the peer), flow control is started with the byte axis enabled iff
the local overlay version is at least
`FIRST_VERSION_SUPPORTING_FLOW_CONTROL_IN_BYTES` (28), the remote overlay
version is at least that constant, and the `AUTH` flags equal the
byte-flow-control request while the local configuration enables it;
otherwise only the message axis is active. -/
theorem C6_byte_flow_control_negotiation (env : Env) (p : Peer) (flags : Nat)
    (hState : p.state = .GOT_HELLO)
    (hAccept : env.acceptAuthenticatedPeer = true) :
    (p.recvAuth env (.auth flags)).2 =
      (if p.role = .REMOTE_CALLED_US then
         .sendMsg (sendAuthMsg env) :: sendPeersEvents env
       else []) ++
      [.startFlowControl
         (decide (env.OVERLAY_PROTOCOL_VERSION ≥
             FIRST_VERSION_SUPPORTING_FLOW_CONTROL_IN_BYTES ∧
           p.remoteOverlayVersion ≥
             FIRST_VERSION_SUPPORTING_FLOW_CONTROL_IN_BYTES) &&
          decide (flags = AUTH_MSG_FLAG_FLOW_CONTROL_BYTES_REQUESTED) &&
          env.ENABLE_FLOW_CONTROL_BYTES),
       .sendMsg (.getSCPState env.getMinLedgerSeqToAskPeers)] ∧
    ((decide (env.OVERLAY_PROTOCOL_VERSION ≥
          FIRST_VERSION_SUPPORTING_FLOW_CONTROL_IN_BYTES ∧
        p.remoteOverlayVersion ≥
          FIRST_VERSION_SUPPORTING_FLOW_CONTROL_IN_BYTES) &&
       decide (flags = AUTH_MSG_FLAG_FLOW_CONTROL_BYTES_REQUESTED) &&
       env.ENABLE_FLOW_CONTROL_BYTES) = true ↔
      env.OVERLAY_PROTOCOL_VERSION ≥
          FIRST_VERSION_SUPPORTING_FLOW_CONTROL_IN_BYTES ∧
        p.remoteOverlayVersion ≥
          FIRST_VERSION_SUPPORTING_FLOW_CONTROL_IN_BYTES ∧
        flags = AUTH_MSG_FLAG_FLOW_CONTROL_BYTES_REQUESTED ∧
        env.ENABLE_FLOW_CONTROL_BYTES = true) := by
  constructor
  · have hAuth : ({ p with state := PeerState.GOT_AUTH } : Peer).isAuthenticated
        = true := by
      simp [Peer.isAuthenticated]
    simp [Peer.recvAuth, hState, hAccept, Peer.isAuthenticated,
      HcnetMessage.authFlags]
  · constructor
    · intro h
      simp only [Bool.and_eq_true, decide_eq_true_eq] at h
      exact ⟨h.1.1.1, h.1.1.2, h.1.2, h.2⟩
    · intro h
      simp only [Bool.and_eq_true, decide_eq_true_eq]
      exact ⟨⟨⟨h.1, h.2.1⟩, h.2.2.1⟩, h.2.2.2⟩

/-- Witness for C6: a responderless concrete session where both versions are
30 ≥ 28, the flags request byte flow control, and the configuration enables
it. -/
theorem C6_byte_flow_control_negotiation_witness :
    p0.state = .GOT_HELLO ∧
    env0.acceptAuthenticatedPeer = true ∧
    (p0.recvAuth env0 (.auth 200)).2 =
      (if p0.role = .REMOTE_CALLED_US then
         .sendMsg (sendAuthMsg env0) :: sendPeersEvents env0
       else []) ++
      [.startFlowControl
         (decide (env0.OVERLAY_PROTOCOL_VERSION ≥
             FIRST_VERSION_SUPPORTING_FLOW_CONTROL_IN_BYTES ∧
           p0.remoteOverlayVersion ≥
             FIRST_VERSION_SUPPORTING_FLOW_CONTROL_IN_BYTES) &&
          decide ((200 : Nat) = AUTH_MSG_FLAG_FLOW_CONTROL_BYTES_REQUESTED) &&
          env0.ENABLE_FLOW_CONTROL_BYTES),
       .sendMsg (.getSCPState env0.getMinLedgerSeqToAskPeers)] :=
  ⟨by decide, by decide,
   (C6_byte_flow_control_negotiation env0 p0 200 (by decide) (by decide)).1⟩

/-- `RECURRENT_TIMER_PERIOD` from `Peer::startRecurrentTimer` (seconds). -/
def RECURRENT_TIMER_PERIOD : Nat := 5

/-- `Peer::PEER_SEND_MODE_IDLE_TIMEOUT` (seconds). -/
def PEER_SEND_MODE_IDLE_TIMEOUT : Int := 60

/-- `Peer::getIOTimeout()`: the peer timeout once authenticated, the (short)
authentication timeout during the handshake. -/
def Peer.getIOTimeout (env : Env) (p : Peer) : Int :=
  if p.isAuthenticated then env.PEER_TIMEOUT
  else env.PEER_AUTHENTICATION_TIMEOUT

/-- What `Peer::recurrentTimerExpired` does when the timer fires without an
asio error: either a drop with a reason, or re-arming the timer (via
`startRecurrentTimer`) for another period. -/
inductive TimerOutcome
  | dropConn (reason : String) (mode : DropMode)
  | rearm (period : Nat)
deriving DecidableEq, Repr

/-- `Peer::recurrentTimerExpired` (error-free path).  The instants are the
`mLastRead`, `mLastWrite` and `mEnqueueTimeOfLastWrite` fields and the flow
controller's outbound-capacity timestamp, passed explicitly; `now` is the
clock reading. -/
def Peer.recurrentTimerExpired (env : Env) (p : Peer)
    (now lastRead lastWrite enqueueTimeOfLastWrite : Int)
    (outboundCapacityTimestamp : Option Int) : TimerOutcome :=
  let timeout := p.getIOTimeout env
  if now - lastRead ≥ timeout ∧ now - lastWrite ≥ timeout then
    .dropConn "idle timeout" .IGNORE_WRITE_QUEUE
  else if (match outboundCapacityTimestamp with
           | some ts => decide (now - ts ≥ PEER_SEND_MODE_IDLE_TIMEOUT)
           | none => false) then
    .dropConn "idle timeout (no new flood requests)" .IGNORE_WRITE_QUEUE
  else if now - enqueueTimeOfLastWrite ≥ env.PEER_STRAGGLER_TIMEOUT then
    .dropConn "straggling (cannot keep up)" .IGNORE_WRITE_QUEUE
  else
    .rearm RECURRENT_TIMER_PERIOD

/-- C7: the recurring timer check runs every 5 seconds and tests, in order:
idle (both read and write stale for at least the IO timeout), flow-idle
(last outbound credit grant at least 60 seconds old), straggler (last
enqueue at least the straggler timeout old); the first match drops with the
stated reason, otherwise the timer re-arms for another 5-second period; the
IO timeout is the authentication timeout before `GOT_AUTH` and the peer
timeout after. -/
theorem C7_recurrent_timer_checks (env : Env) (p : Peer)
    (now lastRead lastWrite enqueueTimeOfLastWrite : Int)
    (outboundCapacityTimestamp : Option Int) :
    (p.getIOTimeout env =
       if p.state = .GOT_AUTH then env.PEER_TIMEOUT
       else env.PEER_AUTHENTICATION_TIMEOUT) ∧
    RECURRENT_TIMER_PERIOD = 5 ∧
    PEER_SEND_MODE_IDLE_TIMEOUT = 60 ∧
    (now - lastRead ≥ p.getIOTimeout env ∧
       now - lastWrite ≥ p.getIOTimeout env →
     p.recurrentTimerExpired env now lastRead lastWrite
         enqueueTimeOfLastWrite outboundCapacityTimestamp =
       .dropConn "idle timeout" .IGNORE_WRITE_QUEUE) ∧
    (¬ (now - lastRead ≥ p.getIOTimeout env ∧
          now - lastWrite ≥ p.getIOTimeout env) →
     (∃ ts, outboundCapacityTimestamp = some ts ∧
        now - ts ≥ PEER_SEND_MODE_IDLE_TIMEOUT) →
     p.recurrentTimerExpired env now lastRead lastWrite
         enqueueTimeOfLastWrite outboundCapacityTimestamp =
       .dropConn "idle timeout (no new flood requests)"
         .IGNORE_WRITE_QUEUE) ∧
    (¬ (now - lastRead ≥ p.getIOTimeout env ∧
          now - lastWrite ≥ p.getIOTimeout env) →
     ¬ (∃ ts, outboundCapacityTimestamp = some ts ∧
          now - ts ≥ PEER_SEND_MODE_IDLE_TIMEOUT) →
     now - enqueueTimeOfLastWrite ≥ env.PEER_STRAGGLER_TIMEOUT →
     p.recurrentTimerExpired env now lastRead lastWrite
         enqueueTimeOfLastWrite outboundCapacityTimestamp =
       .dropConn "straggling (cannot keep up)" .IGNORE_WRITE_QUEUE) ∧
    (¬ (now - lastRead ≥ p.getIOTimeout env ∧
          now - lastWrite ≥ p.getIOTimeout env) →
     ¬ (∃ ts, outboundCapacityTimestamp = some ts ∧
          now - ts ≥ PEER_SEND_MODE_IDLE_TIMEOUT) →
     ¬ (now - enqueueTimeOfLastWrite ≥ env.PEER_STRAGGLER_TIMEOUT) →
     p.recurrentTimerExpired env now lastRead lastWrite
         enqueueTimeOfLastWrite outboundCapacityTimestamp =
       .rearm RECURRENT_TIMER_PERIOD) := by
  have hFlow : (match outboundCapacityTimestamp with
      | some ts => decide (now - ts ≥ PEER_SEND_MODE_IDLE_TIMEOUT)
      | none => false) = true ↔
      (∃ ts, outboundCapacityTimestamp = some ts ∧
        now - ts ≥ PEER_SEND_MODE_IDLE_TIMEOUT) := by
    cases outboundCapacityTimestamp <;> simp
  refine ⟨?_, rfl, rfl, ?_, ?_, ?_, ?_⟩
  · cases hs : p.state <;>
      simp [Peer.getIOTimeout, Peer.isAuthenticated, hs]
  · intro h1
    simp [Peer.recurrentTimerExpired, h1]
  · intro h1 h2
    rw [← hFlow] at h2
    simp [Peer.recurrentTimerExpired, h1, h2]
  · intro h1 h2 h3
    rw [← hFlow] at h2
    simp only [Bool.not_eq_true] at h2
    simp [Peer.recurrentTimerExpired, h1, h2, h3]
  · intro h1 h2 h3
    rw [← hFlow] at h2
    simp only [Bool.not_eq_true] at h2
    simp [Peer.recurrentTimerExpired, h1, h2, h3]

/-- Witness for C7: an unauthenticated concrete session that is not idle
and has a fresh credit grant but has not drained a write for longer than
the straggler timeout, which drops as a straggler. -/
theorem C7_recurrent_timer_checks_witness :
    ¬ ((200 : Int) - 199 ≥ p0.getIOTimeout env0 ∧
         (200 : Int) - 199 ≥ p0.getIOTimeout env0) ∧
    ¬ (∃ ts, (some (190 : Int) : Option Int) = some ts ∧
         (200 : Int) - ts ≥ PEER_SEND_MODE_IDLE_TIMEOUT) ∧
    (200 : Int) - 0 ≥ env0.PEER_STRAGGLER_TIMEOUT ∧
    p0.recurrentTimerExpired env0 200 199 199 0 (some 190) =
      .dropConn "straggling (cannot keep up)" .IGNORE_WRITE_QUEUE :=
  ⟨by decide, by rintro ⟨ts, hts, h⟩; injection hts with h190; simp [PEER_SEND_MODE_IDLE_TIMEOUT] at h; omega,
   by decide,
   (C7_recurrent_timer_checks env0 p0 200 199 199 0 (some 190)).2.2.2.2.2.1
     (by decide)
     (by rintro ⟨ts, hts, h⟩; injection hts with h190; simp [PEER_SEND_MODE_IDLE_TIMEOUT] at h; omega)
     (by decide)⟩

/-- `FlowControlCapacity::ReadingCapacity`: flood credit plus an optional
total in-flight budget (present only on the inbound message axis). -/
structure ReadingCapacity where
  mFloodCapacity : Nat
  mTotalCapacity : Option Nat
deriving DecidableEq, Repr

/-- Modelled from the spec: `OverlayManager::isFloodMessage` is not in the
source tree; per the spec's glossary, flood messages are transactions,
adverts, demands and SCP messages. -/
def isFloodMessage (m : HcnetMessage) : Bool :=
  m.type = .TRANSACTION || m.type = .FLOOD_ADVERT ||
    m.type = .FLOOD_DEMAND || m.type = .SCP_MESSAGE

/-- `FlowControlCapacity::lockLocalCapacity(msg)`, with the axis's message
cost `msgResources = getMsgResourceCount(msg)` passed explicitly (1 on the
message axis, the encoded size on the byte axis).  The total capacity, when
tracked, is decremented first (the source asserts it suffices — a
hypothesis in the theorems); a flood message then needs and consumes flood
capacity, and the lock fails when that is short. -/
def lockLocalCapacity (isFlood : Bool) (msgResources : Nat)
    (cap : ReadingCapacity) : Bool × ReadingCapacity :=
  let cap1 : ReadingCapacity :=
    match cap.mTotalCapacity with
    | some t => { cap with mTotalCapacity := some (t - msgResources) }
    | none => cap
  if isFlood then
    if cap1.mFloodCapacity < msgResources then (false, cap1)
    else (true,
      { cap1 with mFloodCapacity := cap1.mFloodCapacity - msgResources })
  else (true, cap1)

/-- `FlowControlCapacity::releaseLocalCapacity(msg)`: returns the released
flood capacity together with the updated window. -/
def releaseLocalCapacity (isFlood : Bool) (resourcesFreed : Nat)
    (cap : ReadingCapacity) : Nat × ReadingCapacity :=
  let cap1 : ReadingCapacity :=
    match cap.mTotalCapacity with
    | some t => { cap with mTotalCapacity := some (t + resourcesFreed) }
    | none => cap
  if isFlood then
    (resourcesFreed,
     { cap1 with mFloodCapacity := cap1.mFloodCapacity + resourcesFreed })
  else (0, cap1)

/-- The local-capacity state of the flow controller: the always-on message
axis window and the byte axis window, which participates only when byte
flow control was negotiated. -/
structure FlowControl where
  flowControlBytesEnabled : Bool
  msgCapacity : ReadingCapacity
  byteCapacity : ReadingCapacity
deriving DecidableEq, Repr

/-- Modelled from the spec: `FlowControl::beginMessageProcessing` is not in
the source tree (only `FlowControlCapacity` is).  Per the spec, a received
message consumes local capacity on every enabled axis (cost 1 on the
message axis, encoded size on the byte axis), and processing fails when any
enabled axis lacks flood credit. -/
def FlowControl.beginMessageProcessing (xdrSize : HcnetMessage → Nat)
    (fc : FlowControl) (msg : HcnetMessage) : Bool × FlowControl :=
  let r1 := lockLocalCapacity (isFloodMessage msg) 1 fc.msgCapacity
  if fc.flowControlBytesEnabled then
    let r2 := lockLocalCapacity (isFloodMessage msg) (xdrSize msg)
      fc.byteCapacity
    (r1.1 && r2.1, { fc with msgCapacity := r1.2, byteCapacity := r2.2 })
  else
    (r1.1, { fc with msgCapacity := r1.2 })

/-- Modelled from the spec: `FlowControl::endMessageProcessing` is not in
the source tree.  Per the spec, when the consumer finishes (or the message
is discarded) the capacity the message consumed is returned to the local
windows on every enabled axis. -/
def FlowControl.endMessageProcessing (xdrSize : HcnetMessage → Nat)
    (fc : FlowControl) (msg : HcnetMessage) : FlowControl :=
  let r1 := releaseLocalCapacity (isFloodMessage msg) 1 fc.msgCapacity
  if fc.flowControlBytesEnabled then
    let r2 := releaseLocalCapacity (isFloodMessage msg) (xdrSize msg)
      fc.byteCapacity
    { fc with msgCapacity := r1.2, byteCapacity := r2.2 }
  else
    { fc with msgCapacity := r1.2 }

/-- `Peer::beginMessageProcessing(msg)`: runs the flow controller and drops
the connection on failure. -/
def Peer.beginMessageProcessing (xdrSize : HcnetMessage → Nat)
    (fc : FlowControl) (msg : HcnetMessage) : FlowControl × List Event :=
  let r := FlowControl.beginMessageProcessing xdrSize fc msg
  if r.1 then (r.2, [])
  else
    (r.2, [.drop "unexpected flood message, peer at capacity"
             .WE_DROPPED_REMOTE .IGNORE_WRITE_QUEUE])

/-- The success bit of `lockLocalCapacity`: false exactly for a flood
message whose cost exceeds the flood capacity. -/
theorem lockLocalCapacity_fst (b : Bool) (c : Nat) (cap : ReadingCapacity) :
    (lockLocalCapacity b c cap).1 =
      (!b || !(decide (cap.mFloodCapacity < c))) := by
  obtain ⟨f, tot⟩ := cap
  cases tot <;> cases b <;> by_cases h : f < c <;>
    simp [lockLocalCapacity, h]

/-- The flood capacity after `lockLocalCapacity`: decremented by the cost
for a flood message with enough credit, unchanged otherwise. -/
theorem lockLocalCapacity_flood (b : Bool) (c : Nat) (cap : ReadingCapacity) :
    (lockLocalCapacity b c cap).2.mFloodCapacity =
      if b = true ∧ ¬ cap.mFloodCapacity < c then cap.mFloodCapacity - c
      else cap.mFloodCapacity := by
  obtain ⟨f, tot⟩ := cap
  cases tot <;> cases b <;> by_cases h : f < c <;>
    simp [lockLocalCapacity, h]

/-- The total capacity after `lockLocalCapacity`: decremented by the cost
when tracked. -/
theorem lockLocalCapacity_total (b : Bool) (c : Nat) (cap : ReadingCapacity) :
    (lockLocalCapacity b c cap).2.mTotalCapacity =
      cap.mTotalCapacity.map (fun t => t - c) := by
  obtain ⟨f, tot⟩ := cap
  cases tot <;> cases b <;> by_cases h : f < c <;>
    simp [lockLocalCapacity, h]

/-- C4: when a flood-class message begins processing with insufficient flood
capacity on some enabled axis, the connection is dropped with reason
"unexpected flood message, peer at capacity" and `IGNORE_WRITE_QUEUE`;
otherwise every enabled axis's flood capacity is decremented by the
message's cost on that axis; a non-flood message never triggers the drop
and leaves the flood capacities unchanged. -/
theorem C4_flood_capacity_overrun (xdrSize : HcnetMessage → Nat)
    (fc : FlowControl) (msg : HcnetMessage)
    (hFlood : isFloodMessage msg = true) (m2 : HcnetMessage)
    (hNonFlood : isFloodMessage m2 = false) :
    (fc.msgCapacity.mFloodCapacity < 1 ∨
       (fc.flowControlBytesEnabled = true ∧
        fc.byteCapacity.mFloodCapacity < xdrSize msg) →
     (Peer.beginMessageProcessing xdrSize fc msg).2 =
       [.drop "unexpected flood message, peer at capacity"
          .WE_DROPPED_REMOTE .IGNORE_WRITE_QUEUE]) ∧
    (1 ≤ fc.msgCapacity.mFloodCapacity →
     (fc.flowControlBytesEnabled = true →
        xdrSize msg ≤ fc.byteCapacity.mFloodCapacity) →
     (Peer.beginMessageProcessing xdrSize fc msg).2 = [] ∧
     (Peer.beginMessageProcessing xdrSize fc
         msg).1.msgCapacity.mFloodCapacity =
       fc.msgCapacity.mFloodCapacity - 1 ∧
     (fc.flowControlBytesEnabled = true →
      (Peer.beginMessageProcessing xdrSize fc
          msg).1.byteCapacity.mFloodCapacity =
        fc.byteCapacity.mFloodCapacity - xdrSize msg)) ∧
    ((Peer.beginMessageProcessing xdrSize fc m2).2 = [] ∧
     (Peer.beginMessageProcessing xdrSize fc
         m2).1.msgCapacity.mFloodCapacity =
       fc.msgCapacity.mFloodCapacity ∧
     (Peer.beginMessageProcessing xdrSize fc
         m2).1.byteCapacity.mFloodCapacity =
       fc.byteCapacity.mFloodCapacity) := by
  refine ⟨?_, ?_, ?_⟩
  · intro h
    by_cases he : fc.flowControlBytesEnabled = true
    · by_cases h1 : fc.msgCapacity.mFloodCapacity < 1 <;>
        by_cases h2 : fc.byteCapacity.mFloodCapacity < xdrSize msg <;>
          simp [Peer.beginMessageProcessing,
            FlowControl.beginMessageProcessing, lockLocalCapacity_fst,
            hFlood, he, h1, h2]
      rcases h with h | ⟨_, h⟩ <;> omega
    · by_cases h1 : fc.msgCapacity.mFloodCapacity < 1
      · simp [Peer.beginMessageProcessing,
          FlowControl.beginMessageProcessing, lockLocalCapacity_fst,
          hFlood, he, h1]
      · rcases h with h | ⟨hb, _⟩
        · omega
        · exact absurd hb he
  · intro h1 h2
    by_cases he : fc.flowControlBytesEnabled = true
    · have h2' := h2 he
      simp [Peer.beginMessageProcessing, FlowControl.beginMessageProcessing,
        lockLocalCapacity_fst, lockLocalCapacity_flood, hFlood, he,
        Nat.not_lt.mpr h1, Nat.not_lt.mpr h2']
    · simp [Peer.beginMessageProcessing, FlowControl.beginMessageProcessing,
        lockLocalCapacity_fst, lockLocalCapacity_flood, hFlood, he,
        Nat.not_lt.mpr h1]
  · by_cases he : fc.flowControlBytesEnabled = true <;>
      simp [Peer.beginMessageProcessing, FlowControl.beginMessageProcessing,
        lockLocalCapacity_fst, lockLocalCapacity_flood, hNonFlood, he]

/-- Witness for C4: a transaction arriving at a window with no flood credit
on the message axis is dropped; a `GET_PEERS` in the same window is not. -/
theorem C4_flood_capacity_overrun_witness :
    isFloodMessage (.transaction 1) = true ∧
    isFloodMessage .getPeers = false ∧
    (Peer.beginMessageProcessing (fun _ => 5)
        ⟨false, ⟨0, some 10⟩, ⟨7, none⟩⟩ (.transaction 1)).2 =
      [.drop "unexpected flood message, peer at capacity"
         .WE_DROPPED_REMOTE .IGNORE_WRITE_QUEUE] ∧
    (Peer.beginMessageProcessing (fun _ => 5)
        ⟨false, ⟨0, some 10⟩, ⟨7, none⟩⟩ .getPeers).2 = [] :=
  ⟨by decide, by decide,
   (C4_flood_capacity_overrun (fun _ => 5) ⟨false, ⟨0, some 10⟩, ⟨7, none⟩⟩
       (.transaction 1) (by decide) .getPeers (by decide)).1
     (Or.inl (by decide)),
   ((C4_flood_capacity_overrun (fun _ => 5) ⟨false, ⟨0, some 10⟩, ⟨7, none⟩⟩
       (.transaction 1) (by decide) .getPeers (by decide)).2.2).1⟩

/-- The message types whose router category sets `ignoreIfOutOfSync` in
`Peer::recvMessage(HcnetMessage const&)` (the droppable flood class). -/
def ignoreIfOutOfSync (m : HcnetMessage) : Bool :=
  m.type = .TRANSACTION || m.type = .FLOOD_ADVERT || m.type = .FLOOD_DEMAND

/-- The lifecycle events of one inbound message through
`Peer::recvMessage(HcnetMessage const&)`: the `MsgCapacityTracker`
constructor (`beginProcessing`), the dispatch to `recvRawMessage`, and the
tracker destructor (`endProcessing`). -/
inductive DispatchEvent
  | beginProcessing (m : HcnetMessage)
  | dispatch (m : HcnetMessage)
  | endProcessing (m : HcnetMessage)
deriving DecidableEq, Repr

/-- `Peer::recvMessage(HcnetMessage const&)` as its lifecycle trace:
handshake messages (`HELLO`, `AUTH`) are dispatched synchronously with no
tracker; every other message constructs a `MsgCapacityTracker` (running
`beginMessageProcessing`), is discarded before dispatch when the ledger is
out of sync and the category is droppable flood, and in either case the
tracker is destroyed afterwards (running `endMessageProcessing`). -/
def recvMessageDispatch (abortB : Bool) (syncedB : Bool)
    (m : HcnetMessage) : List DispatchEvent :=
  if abortB then []
  else if m.type = .HELLO || m.type = .AUTH then [.dispatch m]
  else
    [.beginProcessing m] ++
      (if !syncedB && ignoreIfOutOfSync m then [] else [.dispatch m]) ++
      [.endProcessing m]

/-- Releasing immediately after a successful lock restores the window
exactly (under the source's assertion that the total sufficed). -/
theorem release_after_lock (b : Bool) (c : Nat) (cap : ReadingCapacity)
    (hTotal : ∀ t, cap.mTotalCapacity = some t → c ≤ t)
    (hOk : (lockLocalCapacity b c cap).1 = true) :
    (releaseLocalCapacity b c (lockLocalCapacity b c cap).2).2 = cap := by
  obtain ⟨f, tot⟩ := cap
  cases b with
  | false =>
    cases tot with
    | none => simp [lockLocalCapacity, releaseLocalCapacity]
    | some t =>
      have ht : c ≤ t := hTotal t rfl
      simp [lockLocalCapacity, releaseLocalCapacity, Nat.sub_add_cancel ht]
  | true =>
    by_cases h : f < c
    · rw [lockLocalCapacity_fst] at hOk
      simp [h] at hOk
    · have hf : c ≤ f := Nat.not_lt.mp h
      cases tot with
      | none =>
        simp [lockLocalCapacity, releaseLocalCapacity, h,
          Nat.sub_add_cancel hf]
      | some t =>
        have ht : c ≤ t := hTotal t rfl
        simp [lockLocalCapacity, releaseLocalCapacity, h,
          Nat.sub_add_cancel hf, Nat.sub_add_cancel ht]

/-- `endMessageProcessing` after a successful `beginMessageProcessing`
restores the flow-control windows exactly. -/
theorem endMessageProcessing_after_begin (xdrSize : HcnetMessage → Nat)
    (fc : FlowControl) (msg : HcnetMessage)
    (hTotMsg : ∀ t, fc.msgCapacity.mTotalCapacity = some t → 1 ≤ t)
    (hTotByte : ∀ t, fc.byteCapacity.mTotalCapacity = some t →
      xdrSize msg ≤ t)
    (hOk : (FlowControl.beginMessageProcessing xdrSize fc msg).1 = true) :
    FlowControl.endMessageProcessing xdrSize
      (FlowControl.beginMessageProcessing xdrSize fc msg).2 msg = fc := by
  obtain ⟨en, mcap, bcap⟩ := fc
  cases en with
  | true =>
    have hOk2 : (lockLocalCapacity (isFloodMessage msg) 1 mcap).1 = true ∧
        (lockLocalCapacity (isFloodMessage msg) (xdrSize msg)
          bcap).1 = true := by
      simpa [FlowControl.beginMessageProcessing,
        Bool.and_eq_true] using hOk
    have e1 := release_after_lock (isFloodMessage msg) 1 mcap
      hTotMsg hOk2.1
    have e2 := release_after_lock (isFloodMessage msg) (xdrSize msg)
      bcap hTotByte hOk2.2
    simp [FlowControl.beginMessageProcessing,
      FlowControl.endMessageProcessing, e1, e2]
  | false =>
    have hOk1 : (lockLocalCapacity (isFloodMessage msg) 1
        mcap).1 = true := by
      simpa [FlowControl.beginMessageProcessing] using hOk
    have e1 := release_after_lock (isFloodMessage msg) 1 mcap
      hTotMsg hOk1
    simp [FlowControl.beginMessageProcessing,
      FlowControl.endMessageProcessing, e1]

/-- C5: a non-handshake inbound message always produces a
`beginProcessing`/`endProcessing` tracker pair around its (possible)
dispatch — including when it is discarded before dispatch because the
ledger is out of sync and the category is droppable flood — and the
destructor's `endMessageProcessing` returns exactly the capacity that
`beginMessageProcessing` consumed. -/
theorem C5_capacity_token (xdrSize : HcnetMessage → Nat) (fc : FlowControl)
    (syncedB : Bool) (m : HcnetMessage)
    (hNotHello : m.type ≠ .HELLO) (hNotAuth : m.type ≠ .AUTH)
    (hTotMsg : ∀ t, fc.msgCapacity.mTotalCapacity = some t → 1 ≤ t)
    (hTotByte : ∀ t, fc.byteCapacity.mTotalCapacity = some t →
      xdrSize m ≤ t)
    (hOk : (FlowControl.beginMessageProcessing xdrSize fc m).1 = true) :
    recvMessageDispatch false syncedB m =
      [.beginProcessing m] ++
        (if !syncedB && ignoreIfOutOfSync m then [] else [.dispatch m]) ++
        [.endProcessing m] ∧
    (syncedB = false → ignoreIfOutOfSync m = true →
       recvMessageDispatch false syncedB m =
         [.beginProcessing m, .endProcessing m]) ∧
    FlowControl.endMessageProcessing xdrSize
      (FlowControl.beginMessageProcessing xdrSize fc m).2 m = fc := by
  refine ⟨?_, ?_, ?_⟩
  · simp [recvMessageDispatch, hNotHello, hNotAuth]
  · intro hs hi
    simp [recvMessageDispatch, hNotHello, hNotAuth, hs, hi]
  · exact endMessageProcessing_after_begin xdrSize fc m hTotMsg hTotByte hOk

/-- Witness for C5: a transaction received out of sync on a byte-enabled
window is begun, discarded, and ended, and the windows are restored. -/
theorem C5_capacity_token_witness :
    (HcnetMessage.transaction 1).type ≠ .HELLO ∧
    (HcnetMessage.transaction 1).type ≠ .AUTH ∧
    (∀ t, (ReadingCapacity.mk 5 (some 10)).mTotalCapacity = some t →
      1 ≤ t) ∧
    (∀ t, (ReadingCapacity.mk 100 (none : Option Nat)).mTotalCapacity =
      some t → 7 ≤ t) ∧
    (FlowControl.beginMessageProcessing (fun _ => 7)
      ⟨true, ⟨5, some 10⟩, ⟨100, none⟩⟩ (.transaction 1)).1 = true ∧
    (recvMessageDispatch false false (.transaction 1) =
       [.beginProcessing (.transaction 1),
        .endProcessing (.transaction 1)] ∧
     FlowControl.endMessageProcessing (fun _ => 7)
       (FlowControl.beginMessageProcessing (fun _ => 7)
         ⟨true, ⟨5, some 10⟩, ⟨100, none⟩⟩ (.transaction 1)).2
       (.transaction 1) = ⟨true, ⟨5, some 10⟩, ⟨100, none⟩⟩) := by
  refine ⟨by decide, by decide, ?_, ?_, by decide, ?_, ?_⟩
  · intro t ht
    injection ht with h
    omega
  · intro t ht
    cases ht
  · exact (C5_capacity_token (fun _ => 7) ⟨true, ⟨5, some 10⟩, ⟨100, none⟩⟩
      false (.transaction 1) (by decide) (by decide)
      (by intro t ht; injection ht with h; omega)
      (by intro t ht; cases ht) (by decide)).2.1 rfl (by decide)
  · exact (C5_capacity_token (fun _ => 7) ⟨true, ⟨5, some 10⟩, ⟨100, none⟩⟩
      false (.transaction 1) (by decide) (by decide)
      (by intro t ht; injection ht with h; omega)
      (by intro t ht; cases ht) (by decide)).2.2

/-- `ADVERT_CACHE_SIZE`, the bound passed to the advert history cache. -/
def ADVERT_CACHE_SIZE : Nat := 50000

/-- Modelled from the spec: `RandomEvictionCache`
(`util/RandomEvictionCache.h`) is not in the source tree.  Per the spec it
is a bounded mapping with randomized eviction, here a size bound plus an
association list. -/
structure RandomEvictionCache where
  maxSize : Nat
  entries : List (Hash × Nat)
deriving DecidableEq, Repr

/-- Modelled from the spec: `put` updates an existing key in place and
otherwise inserts the new entry, first evicting the entry at the
(randomly chosen) index produced by `pick` when the cache is full. -/
def RandomEvictionCache.put (pick : List (Hash × Nat) → Nat)
    (c : RandomEvictionCache) (k : Hash) (v : Nat) : RandomEvictionCache :=
  if c.entries.any (fun e => e.1 = k) then
    { c with entries :=
        c.entries.map (fun e => if e.1 = k then (k, v) else e) }
  else if c.entries.length ≥ c.maxSize then
    { c with entries :=
        (k, v) :: c.entries.eraseIdx (pick c.entries % c.entries.length) }
  else
    { c with entries := (k, v) :: c.entries }

/-- `Peer::clearBelow(ledgerSeq)`: `erase_if` of every entry whose recorded
ledger sequence is strictly below the threshold. -/
def clearBelow (c : RandomEvictionCache) (ledgerSeq : Nat) :
    RandomEvictionCache :=
  { c with entries :=
      c.entries.filter (fun e => ! decide (e.2 < ledgerSeq)) }

/-- C8: an advert-history cache created with bound `ADVERT_CACHE_SIZE`
(50,000) never grows past that bound under `put` (evicting a randomly
chosen entry when full), and after `clearBelow L` no remaining entry's
recorded ledger sequence is below `L`. -/
theorem C8_advert_history_bounds (pick : List (Hash × Nat) → Nat)
    (c : RandomEvictionCache) (k : Hash) (v : Nat) (L : Nat)
    (hMax : c.maxSize = ADVERT_CACHE_SIZE)
    (hInv : c.entries.length ≤ c.maxSize) :
    (c.put pick k v).entries.length ≤ ADVERT_CACHE_SIZE ∧
    (c.put pick k v).maxSize = ADVERT_CACHE_SIZE ∧
    ∀ e ∈ (clearBelow c L).entries, ¬ e.2 < L := by
  refine ⟨?_, ?_, ?_⟩
  · rw [hMax] at hInv
    by_cases hAny : c.entries.any (fun e => e.1 = k) = true
    · simpa [RandomEvictionCache.put, hAny] using hInv
    · by_cases hFull : c.entries.length ≥ c.maxSize
      · have hPos : 0 < c.entries.length := by
          rw [hMax] at hFull
          simp only [ADVERT_CACHE_SIZE] at hFull
          omega
        have hIdx : pick c.entries % c.entries.length <
            c.entries.length := Nat.mod_lt _ hPos
        have hLen := List.length_eraseIdx_add_one hIdx
        simp only [RandomEvictionCache.put, hAny, hFull, if_true,
          if_false, Bool.false_eq_true, ite_false, ge_iff_le,
          List.length_cons]
        omega
      · simp only [RandomEvictionCache.put, hAny, hFull,
          Bool.false_eq_true, ite_false, if_false, List.length_cons]
        rw [hMax, Nat.not_le] at hFull
        omega
  · simp only [RandomEvictionCache.put]
    split <;> simp [hMax]
    split <;> simp [hMax]
  · intro e he
    simp only [clearBelow, List.mem_filter, Bool.not_eq_eq_eq_not,
      Bool.not_true, decide_eq_false_iff_not] at he
    exact he.2

/-- Witness for C8 at a tiny concrete cache that is full (relative to the
invariant hypotheses) and holds entries on both sides of the threshold. -/
theorem C8_advert_history_bounds_witness :
    (RandomEvictionCache.mk ADVERT_CACHE_SIZE
      [(1, 10), (2, 20)]).maxSize = ADVERT_CACHE_SIZE ∧
    (RandomEvictionCache.mk ADVERT_CACHE_SIZE
      [(1, 10), (2, 20)]).entries.length ≤ ADVERT_CACHE_SIZE ∧
    (((RandomEvictionCache.mk ADVERT_CACHE_SIZE
          [(1, 10), (2, 20)]).put (fun _ => 0) 3 15).entries.length ≤
        ADVERT_CACHE_SIZE ∧
     ((RandomEvictionCache.mk ADVERT_CACHE_SIZE
          [(1, 10), (2, 20)]).put (fun _ => 0) 3 15).maxSize =
        ADVERT_CACHE_SIZE ∧
     ∀ e ∈ (clearBelow (RandomEvictionCache.mk ADVERT_CACHE_SIZE
          [(1, 10), (2, 20)]) 15).entries, ¬ e.2 < 15) :=
  ⟨by decide, by decide,
   C8_advert_history_bounds (fun _ => 0)
     (RandomEvictionCache.mk ADVERT_CACHE_SIZE [(1, 10), (2, 20)]) 3 15 15
     (by decide) (by decide)⟩

/-- `Peer::startAdvertTimer()`: arms the flush timer unless the session is
aborting. -/
def startAdvertTimer (abortB : Bool) : List Event :=
  if abortB then [] else [.startAdvertTimer]

/-- `Peer::flushAdvert()`: when the batch is non-empty, send one
`FLOOD_ADVERT` carrying exactly the queued hashes and clear the batch;
an empty batch sends nothing. -/
def flushAdvert (batch : List Hash) : List Hash × List Event :=
  if batch.length > 0 then ([], [.sendMsg (.floodAdvert batch)])
  else (batch, [])

/-- `Peer::queueTxHashToAdvertise(txHash)`.  `txAdvertVectorMaxSize` is the
XDR bound `TX_ADVERT_VECTOR_MAX_SIZE` and `env.getMaxAdvertSize` the
overlay manager's configured advert batch size; `abortB` is
`shouldAbort()` inside `startAdvertTimer`. -/
def queueTxHashToAdvertise (env : Env) (txAdvertVectorMaxSize : Nat)
    (abortB : Bool) (batch : List Hash) (txHash : Hash) :
    List Hash × List Event :=
  let timerEvs := if batch.isEmpty then startAdvertTimer abortB else []
  if batch.length = txAdvertVectorMaxSize then (batch, timerEvs)
  else
    let batch1 := batch ++ [txHash]
    if batch1.length ≥ env.getMaxAdvertSize then
      let r := flushAdvert batch1
      (r.1, timerEvs ++ r.2)
    else (batch1, timerEvs)

/-- C9: queueing a hash starts the flush timer exactly when the batch was
previously empty (and the session is not aborting); a batch already at the
advert vector's maximum size silently discards the hash; the batch is
flushed as soon as its size reaches the configured maximum advert size,
sending one `FLOOD_ADVERT` with exactly the queued hashes and leaving the
batch empty; and a timer-fired flush of an empty batch sends nothing while
a non-empty one sends exactly the batch. -/
theorem C9_advert_batching (env : Env) (txAdvertVectorMaxSize : Nat)
    (batch : List Hash) (txHash : Hash) (b2 : List Hash)
    (hB2 : b2 ≠ []) :
    (batch = [] →
       (queueTxHashToAdvertise env txAdvertVectorMaxSize false batch
          txHash).2.head? = some .startAdvertTimer) ∧
    (batch ≠ [] →
       .startAdvertTimer ∉
         (queueTxHashToAdvertise env txAdvertVectorMaxSize false batch
            txHash).2) ∧
    (batch.length = txAdvertVectorMaxSize →
       (queueTxHashToAdvertise env txAdvertVectorMaxSize false batch
            txHash).1 = batch ∧
       ∀ hs, Event.sendMsg (.floodAdvert hs) ∉
         (queueTxHashToAdvertise env txAdvertVectorMaxSize false batch
            txHash).2) ∧
    (batch.length ≠ txAdvertVectorMaxSize →
       batch.length + 1 ≥ env.getMaxAdvertSize →
       (queueTxHashToAdvertise env txAdvertVectorMaxSize false batch
            txHash).1 = [] ∧
       Event.sendMsg (.floodAdvert (batch ++ [txHash])) ∈
         (queueTxHashToAdvertise env txAdvertVectorMaxSize false batch
            txHash).2) ∧
    (batch.length ≠ txAdvertVectorMaxSize →
       batch.length + 1 < env.getMaxAdvertSize →
       (queueTxHashToAdvertise env txAdvertVectorMaxSize false batch
            txHash).1 = batch ++ [txHash] ∧
       ∀ hs, Event.sendMsg (.floodAdvert hs) ∉
         (queueTxHashToAdvertise env txAdvertVectorMaxSize false batch
            txHash).2) ∧
    flushAdvert ([] : List Hash) = ([], []) ∧
    flushAdvert b2 = ([], [.sendMsg (.floodAdvert b2)]) := by
  refine ⟨?_, ?_, ?_, ?_, ?_, ?_, ?_⟩
  · intro hE
    subst hE
    simp only [queueTxHashToAdvertise, startAdvertTimer, flushAdvert,
      List.isEmpty_nil, if_true, ite_true, Bool.false_eq_true, ite_false]
    split
    · simp
    · split <;> simp
  · intro hNE
    have hNE' : batch.isEmpty = false := by
      simpa [List.isEmpty_iff] using hNE
    by_cases hM : batch.length = txAdvertVectorMaxSize
    · simp [queueTxHashToAdvertise, hNE', hM]
    · by_cases hF : batch.length + 1 ≥ env.getMaxAdvertSize <;>
        simp [queueTxHashToAdvertise, flushAdvert, hNE', hM, hF]
  · intro hM
    refine ⟨by simp [queueTxHashToAdvertise, hM], ?_⟩
    intro hs
    by_cases hE : batch.isEmpty <;>
      simp [queueTxHashToAdvertise, hM, hE, startAdvertTimer]
  · intro hM hF
    constructor <;>
      by_cases hE : batch.isEmpty <;>
        simp [queueTxHashToAdvertise, flushAdvert, hM, hF, hE,
          startAdvertTimer]
  · intro hM hF
    have hF' : ¬ batch.length + 1 ≥ env.getMaxAdvertSize := by omega
    constructor
    · simp [queueTxHashToAdvertise, hM, hF']
    · intro hs
      by_cases hE : batch.isEmpty <;>
        simp [queueTxHashToAdvertise, hM, hF', hE, startAdvertTimer]
  · simp [flushAdvert]
  · have : b2.length > 0 := List.length_pos.mpr hB2
    simp [flushAdvert, this]

/-- Witness for C9: queueing onto an empty batch (bound 1000, configured
max 3) starts the timer; queueing the third hash flushes exactly the three
queued hashes. -/
theorem C9_advert_batching_witness :
    ([(5 : Nat), 6] ≠ []) ∧
    ((([(5 : Nat), 6] : List Hash).length ≠ 1000 →
      ([(5 : Nat), 6] : List Hash).length + 1 ≥ env0.getMaxAdvertSize →
      (queueTxHashToAdvertise env0 1000 false [5, 6] 7).1 = [] ∧
      Event.sendMsg (.floodAdvert ([5, 6] ++ [7])) ∈
        (queueTxHashToAdvertise env0 1000 false [5, 6] 7).2) ∧
     (([] : List Hash) = [] →
      (queueTxHashToAdvertise env0 1000 false [] 7).2.head? =
        some .startAdvertTimer)) :=
  ⟨by decide,
   (C9_advert_batching env0 1000 [5, 6] 7 [5, 6] (by decide)).2.2.2.1,
   (C9_advert_batching env0 1000 [] 7 [5, 6] (by decide)).1⟩

/-- The demand-fulfilment counters of `Peer::PeerMetrics`. -/
structure DemandMetrics where
  mMessagesFulfilled : Nat
  mBannedMessageUnfulfilled : Nat
  mUnknownMessageUnfulfilled : Nat
deriving DecidableEq, Repr

/-- `Peer::fulfillDemand(dmd)`: for each demanded hash in order, send the
transaction when the consensus engine has it (counting it fulfilled), else
count it banned-unfulfilled or unknown-unfulfilled; nothing is sent for an
unfulfilled hash. -/
def fulfillDemand (env : Env) (m : DemandMetrics) :
    List Hash → DemandMetrics × List Event
  | [] => (m, [])
  | h :: rest =>
    match env.getTx h with
    | some tx =>
      let r := fulfillDemand env
        { m with mMessagesFulfilled := m.mMessagesFulfilled + 1 } rest
      (r.1, .sendMsg (.transaction tx) :: r.2)
    | none =>
      if env.isBannedTx h then
        fulfillDemand env
          { m with mBannedMessageUnfulfilled :=
              m.mBannedMessageUnfulfilled + 1 } rest
      else
        fulfillDemand env
          { m with mUnknownMessageUnfulfilled :=
              m.mUnknownMessageUnfulfilled + 1 } rest

/-- C10: over a received `FLOOD_DEMAND`, exactly the hashes the consensus
engine has produce an outgoing `TRANSACTION` (in demand order) and bump the
fulfilled counter; among the rest, banned hashes bump the
banned-unfulfilled counter and the others the unknown-unfulfilled counter;
nothing is sent for unfulfilled hashes. -/
theorem C10_fulfill_demand (env : Env) (m : DemandMetrics)
    (hs : List Hash) :
    (fulfillDemand env m hs).2 =
      hs.filterMap (fun h =>
        (env.getTx h).map (fun tx => Event.sendMsg (.transaction tx))) ∧
    (fulfillDemand env m hs).1.mMessagesFulfilled =
      m.mMessagesFulfilled +
        hs.countP (fun h => (env.getTx h).isSome) ∧
    (fulfillDemand env m hs).1.mBannedMessageUnfulfilled =
      m.mBannedMessageUnfulfilled +
        hs.countP (fun h => (env.getTx h).isNone && env.isBannedTx h) ∧
    (fulfillDemand env m hs).1.mUnknownMessageUnfulfilled =
      m.mUnknownMessageUnfulfilled +
        hs.countP (fun h => (env.getTx h).isNone && ! env.isBannedTx h) := by
  induction hs generalizing m with
  | nil => simp [fulfillDemand]
  | cons h rest ih =>
    rcases hTx : env.getTx h with _ | tx
    · by_cases hBan : env.isBannedTx h = true
      · have ihb := ih { m with mBannedMessageUnfulfilled :=
            m.mBannedMessageUnfulfilled + 1 }
        refine ⟨?_, ?_, ?_, ?_⟩ <;>
          simp [fulfillDemand, hTx, hBan, ihb.1, ihb.2.1,
            ihb.2.2.1, ihb.2.2.2, List.countP_cons, List.filterMap_cons] <;>
          omega
      · have ihu := ih { m with mUnknownMessageUnfulfilled :=
            m.mUnknownMessageUnfulfilled + 1 }
        have hBan' : env.isBannedTx h = false := by
          simpa using hBan
        refine ⟨?_, ?_, ?_, ?_⟩ <;>
          simp [fulfillDemand, hTx, hBan', ihu.1, ihu.2.1,
            ihu.2.2.1, ihu.2.2.2, List.countP_cons, List.filterMap_cons] <;>
          omega
    · have ihf := ih { m with mMessagesFulfilled :=
          m.mMessagesFulfilled + 1 }
      refine ⟨?_, ?_, ?_, ?_⟩ <;>
        simp [fulfillDemand, hTx, ihf.1, ihf.2.1, ihf.2.2.1,
          ihf.2.2.2, List.countP_cons, List.filterMap_cons] <;>
        omega

end Hcnet
